import Mathlib

/-!
Verification development for the portal-rendering crate (`bevy_easy_portals`).

The crate's current-generation module `src/camera.rs` (whose line ranges the
claims cite, and which alone carries the `flip_near_plane_normal` feature)
is embedded shallowly below; `src/lib.rs` holds an earlier revision of the
same systems and is noted where it differs.  Machine `f32` arithmetic is
modelled over `ℚ`; square roots (which `f32` approximates) are modelled by
`ratSqrt`, exact on every input whose root is rational — all properties
proved here only evaluate square roots at such inputs (norms of unit
vectors and of unit vectors scaled by a rational).
-/

namespace Portals

/-- Model of `glam::Vec3` (`f32` components modelled as `ℚ`). -/
structure Vec3 where
  x : ℚ
  y : ℚ
  z : ℚ
deriving DecidableEq, Repr

namespace Vec3

def add (a b : Vec3) : Vec3 := ⟨a.x + b.x, a.y + b.y, a.z + b.z⟩

def sub (a b : Vec3) : Vec3 := ⟨a.x - b.x, a.y - b.y, a.z - b.z⟩

def neg (a : Vec3) : Vec3 := ⟨-a.x, -a.y, -a.z⟩

/-- Scalar multiplication. -/
def smul (c : ℚ) (a : Vec3) : Vec3 := ⟨c * a.x, c * a.y, c * a.z⟩

/-- Componentwise multiplication (`glam` `Vec3 * Vec3`). -/
def cmul (a b : Vec3) : Vec3 := ⟨a.x * b.x, a.y * b.y, a.z * b.z⟩

def dot (a b : Vec3) : ℚ := a.x * b.x + a.y * b.y + a.z * b.z

def cross (a b : Vec3) : Vec3 :=
  ⟨a.y * b.z - a.z * b.y, a.z * b.x - a.x * b.z, a.x * b.y - a.y * b.x⟩

/-- `length_squared`. -/
def normSq (a : Vec3) : ℚ := dot a a

def zero : Vec3 := ⟨0, 0, 0⟩

end Vec3

/-- Exact rational square root: `ratSqrt q` is the nonnegative rational root
of `q` when one exists, and `0` (a junk value, standing for the irrational
`f32` result never exercised by the claims) otherwise. -/
def ratSqrt (q : ℚ) : ℚ :=
  let n := Nat.sqrt q.num.natAbs
  let d := Nat.sqrt q.den
  if 0 ≤ q.num ∧ (n * n : ℤ) = q.num ∧ d * d = q.den then (n : ℚ) / (d : ℚ) else 0

/-- Model of `glam::Vec3::normalize_or_zero` (zero when the length is zero;
`f32` division by the length otherwise). -/
def normalizeOrZero (v : Vec3) : Vec3 :=
  let len := ratSqrt (Vec3.normSq v)
  if len = 0 then Vec3.zero else Vec3.smul (1 / len) v

/-- Model of `glam::Quat` (`f32` components as `ℚ`). -/
structure Quat where
  w : ℚ
  x : ℚ
  y : ℚ
  z : ℚ
deriving DecidableEq, Repr

namespace Quat

/-- Hamilton product, as in `glam::Quat::mul_quat`. -/
def mul (a b : Quat) : Quat :=
  ⟨a.w * b.w - a.x * b.x - a.y * b.y - a.z * b.z,
   a.w * b.x + a.x * b.w + a.y * b.z - a.z * b.y,
   a.w * b.y - a.x * b.z + a.y * b.w + a.z * b.x,
   a.w * b.z + a.x * b.y - a.y * b.x + a.z * b.w⟩

/-- `glam::Quat::inverse` is the conjugate (the true inverse for the unit
quaternions the engine maintains). -/
def inv (a : Quat) : Quat := ⟨a.w, -a.x, -a.y, -a.z⟩

def id : Quat := ⟨1, 0, 0, 0⟩

def normSq (a : Quat) : ℚ := a.w * a.w + a.x * a.x + a.y * a.y + a.z * a.z

/-- `glam::Quat::mul_vec3`: rotate a vector,
`v * (w² - ‖b‖²) + b * (2 (v·b)) + (b × v) * 2w` with `b` the vector part —
algebraically equal to `q v q⁻¹` for any `q`. -/
def rot (q : Quat) (v : Vec3) : Vec3 :=
  let b : Vec3 := ⟨q.x, q.y, q.z⟩
  Vec3.add
    (Vec3.add (Vec3.smul (q.w * q.w - Vec3.normSq b) v)
      (Vec3.smul (2 * Vec3.dot v b) b))
    (Vec3.smul (2 * q.w) (Vec3.cross b v))

end Quat

/-- A quaternion the engine treats as a rotation (unit norm). -/
def IsUnitQuat (q : Quat) : Prop := Quat.normSq q = 1

instance (q : Quat) : Decidable (IsUnitQuat q) := by
  unfold IsUnitQuat; infer_instance

/-- Model of a bevy `Transform` / decomposed `GlobalTransform`
(translation, rotation, scale). -/
structure Transf where
  translation : Vec3
  rotation : Quat
  scale : Vec3
deriving DecidableEq, Repr

namespace Transf

def identity : Transf := ⟨Vec3.zero, Quat.id, ⟨1, 1, 1⟩⟩

/-- `GlobalTransform::transform_point` (= `Affine3A::transform_point3` for
the affine `T ∘ R ∘ S`): `t + R (s ∘ p)`. -/
def transformPoint (t : Transf) (p : Vec3) : Vec3 :=
  Vec3.add t.translation (Quat.rot t.rotation (Vec3.cmul t.scale p))

/-- `GlobalTransform::affine().inverse().transform_point3`: the inverse of
`T ∘ R ∘ S` applied to a point, `s⁻¹ ∘ R⁻¹ (p - t)`.  (`1/0 = 0` in `ℚ` is
junk standing for the `f32` infinity of a degenerate zero scale.) -/
def invTransformPoint (t : Transf) (p : Vec3) : Vec3 :=
  Vec3.cmul ⟨1 / t.scale.x, 1 / t.scale.y, 1 / t.scale.z⟩
    (Quat.rot (Quat.inv t.rotation) (Vec3.sub p t.translation))

/-- `GlobalTransform::forward() = -back()`, where `back()` normalizes the
affine matrix's z-axis `R (s_z · e_z)`. -/
def forward (t : Transf) : Vec3 :=
  Vec3.neg (normalizeOrZero (Quat.rot t.rotation ⟨0, 0, t.scale.z⟩))

end Transf

/-- Model of `bevy::render::primitives::HalfSpace` (a plane `n·p + d = 0`
stored as a 4-vector). -/
structure HalfSpace where
  normal : Vec3
  d : ℚ
deriving DecidableEq, Repr

/-- `HalfSpace::new(normal_d)`: rescales the 4-vector by the reciprocal
length of its xyz part (`1/0 = 0` is junk for the degenerate `f32` infinity). -/
def halfSpaceNew (n : Vec3) (d : ℚ) : HalfSpace :=
  let len := ratSqrt (Vec3.normSq n)
  ⟨Vec3.smul (1 / len) n, (1 / len) * d⟩

/-- Model of `bevy::render::primitives::Frustum` (`half_spaces: [HalfSpace; 6]`,
index 4 being the near plane). -/
structure Frustum where
  half_spaces : List HalfSpace
deriving DecidableEq, Repr

/-- Model of `Portal` (`src/camera.rs` generation, which carries
`flip_near_plane_normal`); entity ids are `ℕ`. -/
structure Portal where
  primary_camera : ℕ
  target : ℕ
  flip_near_plane_normal : Bool
  linked_camera : Option ℕ
deriving DecidableEq, Repr

/-! ### Per-frame transform update (`update_portal_camera_transform`) -/

/-- The secondary pose computed by `update_portal_camera_transform`:
`relative_translation = portal.affine().inverse().transform_point3(primary.translation)`,
`translation = target.transform_point(relative_translation)`,
`relative_rotation = portal.rotation().inverse() * primary.rotation()`,
`rotation = target.rotation() * relative_rotation`. -/
def computeSecondaryPose (primary portal target : Transf) : Vec3 × Quat :=
  let relative_translation := Transf.invTransformPoint portal primary.translation
  let translation := Transf.transformPoint target relative_translation
  let relative_rotation := Quat.mul (Quat.inv portal.rotation) primary.rotation
  let rotation := Quat.mul target.rotation relative_rotation
  (translation, rotation)

/-- The `(GlobalTransform, Transform)` pair stored on a portal camera. -/
structure CamPose where
  global : Transf
  local_xf : Transf
deriving DecidableEq, Repr

/-- Association-list store of entity components (first binding wins, as a
fresh ECS write shadows none — entities are unique keys in practice). -/
abbrev Store (α : Type) := List (ℕ × α)

def Store.set {α : Type} (s : Store α) (k : ℕ) (v : α) : Store α := (k, v) :: s

/-- One iteration of the `update_portal_camera_transform` loop for a single
portal: resolve primary and target `GlobalTransform`s, then the linked
camera's transform pair; on any failure the store is left untouched
(`continue`); otherwise write the computed pose as both `Transform` and
`GlobalTransform`. -/
def updateOneTransform (gts : Store Transf) (camPoses : Store CamPose)
    (portalTransform : Transf) (portal : Portal) : Store CamPose :=
  match gts.lookup portal.primary_camera, gts.lookup portal.target with
  | some primary, some target =>
    match portal.linked_camera with
    | none => camPoses
    | some cam =>
      match camPoses.lookup cam with
      | none => camPoses
      | some pose =>
        let computed := computeSecondaryPose primary portalTransform target
        let newLocal : Transf :=
          { pose.local_xf with translation := computed.1, rotation := computed.2 }
        camPoses.set cam ⟨newLocal, newLocal⟩
  | _, _ => camPoses

/-- The full transform-update pass over all portals. -/
def transformPass (gts : Store Transf) (portals : List (Transf × Portal))
    (camPoses : Store CamPose) : Store CamPose :=
  portals.foldl (fun st p => updateOneTransform gts st p.1 p.2) camPoses

/-! ### Per-frame frustum update (`update_portal_camera_frusta`) -/

/-- The near-clip normal chosen by `update_portal_camera_frusta`: the
target's forward axis, negated when `flip_near_plane_normal` is set and
`(portal_translation - primary_translation) · portal_forward ≤ 0`. -/
def nearClipNormal (flip : Bool) (portalT primaryT targetT : Transf) : Vec3 :=
  let normal := Transf.forward targetT
  if flip &&
      decide (Vec3.dot (Vec3.sub portalT.translation primaryT.translation)
        (Transf.forward portalT) ≤ 0) then
    Vec3.neg normal
  else normal

/-- The near-clip half-space written at `frustum.half_spaces[4]`:
`distance = -target_translation · normalize_or_zero(normal)`. -/
def portalNearHalfSpace (flip : Bool) (portalT primaryT targetT : Transf) :
    HalfSpace :=
  let normal := nearClipNormal flip portalT primaryT targetT
  let distance := -(Vec3.dot targetT.translation (normalizeOrZero normal))
  halfSpaceNew normal distance

/-- One iteration of the `update_portal_camera_frusta` loop: resolve the
linked camera, its `Frustum`, then the primary and target transforms; on
any failure leave the store untouched; otherwise overwrite index 4 of the
frustum's half-spaces. -/
def updateOneFrustum (gts : Store Transf) (frusta : Store Frustum)
    (portalTransform : Transf) (portal : Portal) : Store Frustum :=
  match portal.linked_camera with
  | none => frusta
  | some cam =>
    match frusta.lookup cam with
    | none => frusta
    | some frustum =>
      match gts.lookup portal.primary_camera, gts.lookup portal.target with
      | some primary, some target =>
        frusta.set cam
          ⟨frustum.half_spaces.set 4
            (portalNearHalfSpace portal.flip_near_plane_normal
              portalTransform primary target)⟩
      | _, _ => frusta

/-- The full frustum-update pass over all portals. -/
def frustumPass (gts : Store Transf) (portals : List (Transf × Portal))
    (frusta : Store Frustum) : Store Frustum :=
  portals.foldl (fun st p => updateOneFrustum gts st p.1 p.2) frusta

/-! ### Camera model and portal setup (`setup_portal_camera`) -/

/-- Physical pixel size (`UVec2`). -/
structure USize2 where
  w : ℕ
  h : ℕ
deriving DecidableEq, Repr

/-- `bevy::window::WindowRef`. -/
inductive WindowRef where
  | primary : WindowRef
  | entity : ℕ → WindowRef
deriving DecidableEq, Repr

/-- `bevy::camera::RenderTarget`; image and texture-view handles are `ℕ`. -/
inductive RenderTarget where
  | window : WindowRef → RenderTarget
  | image : ℕ → RenderTarget
  | textureView : ℕ → RenderTarget
deriving DecidableEq, Repr

/-- `bevy::camera::Viewport` (only the field the crate reads). -/
structure Viewport where
  physical_size : USize2
deriving DecidableEq, Repr

/-- The `Camera` component fields the crate reads or writes; remaining
configuration copied verbatim by `..primary_camera.clone()` is represented
by `viewport`, `is_active`, `hdr` and the opaque `rest`. -/
structure Camera where
  order : ℤ
  target : RenderTarget
  viewport : Option Viewport
  is_active : Bool
  hdr : Bool
  rest : ℕ
deriving DecidableEq, Repr

/-- `Extent3d` (depth defaulted to 1 by `..default()`). -/
structure Extent3d where
  width : ℕ
  height : ℕ
  depth_or_array_layers : ℕ
deriving DecidableEq, Repr

def toExtent (s : USize2) : Extent3d := ⟨s.w, s.h, 1⟩

/-- The window/image/texture-view environment behind the `PortalImages`
system param's queries. -/
structure SizeEnv where
  primaryWindow : Option USize2
  windows : Store USize2
  images : Store USize2
  manualTextureViews : Store USize2
deriving Repr

/-- `PortalImages::get_viewport_size` (`src/camera.rs`): an explicitly
configured viewport wins; otherwise the render target is resolved
(primary window, window entity, image, manual texture view). -/
def getViewportSize (env : SizeEnv) (camera : Camera) : Option Extent3d :=
  (match camera.viewport with
    | some viewport => some viewport.physical_size
    | none =>
      match camera.target with
      | .window .primary => env.primaryWindow
      | .window (.entity e) => env.windows.lookup e
      | .image handle => env.images.lookup handle
      | .textureView handle => env.manualTextureViews.lookup handle).map
    toExtent

/-- `TextureFormat::pixel_size()` for the constant format the crate uses,
`Bgra8UnormSrgb` (4 bytes); other formats are not exercised. -/
def pixelSizeBgra8UnormSrgb : Option ℕ := some 4

/-- The image allocated by `PortalImages::new`: sized from
`get_viewport_size`, `None` when no size (or no pixel size) is obtainable. -/
structure ImageSpec where
  size : Extent3d
  dataBytes : ℕ
deriving DecidableEq, Repr

def portalImagesNew (env : SizeEnv) (camera : Camera) : Option ImageSpec :=
  match getViewportSize env camera with
  | none => none
  | some size =>
    match pixelSizeBgra8UnormSrgb with
    | none => none
    | some ps => some ⟨size, size.width * size.height * size.depth_or_array_layers * ps⟩

/-- The optional rendering components read off the primary camera
(`Camera3d`, `DebandDither`, `Tonemapping`, `ColorGrading`, `Exposure`),
with opaque payloads. -/
structure CameraOpts where
  camera3d : Option ℕ
  debandDither : Option ℕ
  tonemapping : Option ℕ
  colorGrading : Option ℕ
  exposure : Option ℕ
deriving DecidableEq, Repr

/-- The bundle spawned for the secondary camera: a `Camera` with
`order: 100` and `target: RenderTarget::Image(image)`, the remaining
`Camera` fields copied from the primary, and each optional component
copied when present or defaulted (defaults modelled as `0`).  The
`projection` field is the spawned entity's `Projection` component: the
spawn bundle contains no `Projection` and the primary-camera query never
reads one, so the engine's required-component machinery (`Camera3d`
requires `Projection`) inserts the default. -/
structure SpawnedCamera where
  camera : Camera
  camera3d : ℕ
  debandDither : ℕ
  tonemapping : ℕ
  colorGrading : ℕ
  exposure : ℕ
  projection : ℕ
deriving DecidableEq, Repr

def mkSpawnedCamera (primary : Camera) (opts : CameraOpts) (image : ℕ) :
    SpawnedCamera :=
  { camera := { primary with order := 100, target := .image image }
    camera3d := opts.camera3d.getD 0
    debandDither := opts.debandDither.getD 0
    tonemapping := opts.tonemapping.getD 0
    colorGrading := opts.colorGrading.getD 0
    exposure := opts.exposure.getD 0
    projection := 0 }

/-- `setup_portal_camera` (`src/camera.rs`), triggered on `Add<Portal>`:
resolve the primary camera (else log and return), allocate the portal
image (else log and return), resolve the target's `GlobalTransform` (else
log and return), then spawn the secondary camera (as entity `newId`) and
set `linked_camera`.  Returns the updated portal and the spawned bundle;
every failure leaves the portal unchanged and spawns nothing. -/
def setupPortalCamera (env : SizeEnv) (cams : Store (Camera × CameraOpts))
    (gts : Store Transf) (portal : Portal) (newId imageHandle : ℕ) :
    Portal × Option SpawnedCamera :=
  match cams.lookup portal.primary_camera with
  | none => (portal, none)
  | some (primary, opts) =>
    match portalImagesNew env primary with
    | none => (portal, none)
    | some _ =>
      match gts.lookup portal.target with
      | none => (portal, none)
      | some _ =>
        ({ portal with linked_camera := some newId },
         some (mkSpawnedCamera primary opts imageHandle))

/-! ### Portal removal (`despawn_portal_camera`) -/

/-- A world entity with its optional parent (for child despawning). -/
structure Ent where
  id : ℕ
  parent : Option ℕ
deriving DecidableEq, Repr

def parentOf (w : List Ent) (e : ℕ) : Option ℕ :=
  (w.find? (fun en => en.id = e)).bind Ent.parent

/-- Whether `e` is `c` or a descendant of `c`, chasing parent links with
the given fuel (the world size bounds every acyclic chain). -/
def inSubtree (w : List Ent) (c : ℕ) : ℕ → ℕ → Bool
  | 0, e => e = c
  | fuel + 1, e =>
    e = c ||
      match parentOf w e with
      | none => false
      | some p => inSubtree w c fuel p

/-- `despawn_portal_camera`, triggered on `Remove<Portal>`: when
`linked_camera` is `Some`, despawn that entity together with its
descendants (`EntityCommands::despawn` despawns children); when `None`,
despawn nothing. -/
def despawnPortalCamera (portal : Portal) (w : List Ent) : List Ent :=
  match portal.linked_camera with
  | none => w
  | some cam => w.filter (fun en => ! inSubtree w cam w.length en.id)

/-! ### Pointer passthrough (`src/picking.rs`, `portal_picking`) -/

/-- 2D position (`glam::Vec2`). -/
structure Vec2 where
  x : ℚ
  y : ℚ
deriving DecidableEq, Repr

/-- `bevy::math::Ray3d`. -/
structure Ray where
  origin : Vec3
  dir : Vec3
deriving DecidableEq, Repr

/-- `Ray3d::get_point`. -/
def rayGetPoint (r : Ray) (d : ℚ) : Vec3 := Vec3.add r.origin (Vec3.smul d r.dir)

/-- `Transform::forward()` (local transform; `rotation * Dir3::NEG_Z`). -/
def Transf.localForward (t : Transf) : Vec3 := Quat.rot t.rotation ⟨0, 0, -1⟩

/-- Pointer ids (`PointerId`, including the portal's custom UUID pointer)
modelled as `ℕ`. -/
abbrev PId := ℕ

/-- `bevy::picking::pointer::Location`: a render-target id and a position. -/
structure Loc where
  target : ℕ
  position : Vec2
deriving DecidableEq, Repr

/-- An incoming `PointerInput` (action payload opaque). -/
structure PInput where
  pointer_id : PId
  location : Loc
  action : ℕ
deriving DecidableEq, Repr

/-- A forwarded `PortalInput` event. -/
structure PortalInput where
  pointer_id : PId
  location : Loc
  action : ℕ
deriving DecidableEq, Repr

/-- The components `portal_picking` queries off a portal entity:
`(&Portal, &Transform, &PointerId, &PointerLocation)`. -/
structure PortalPick where
  portal : Portal
  transform : Transf
  pointerId : PId
  pointerLocation : Loc
deriving DecidableEq, Repr

/-- External world for the picking pass.  The projection primitives
(`Camera::viewport_to_world`, `Ray3d::intersect_plane`,
`Camera::world_to_viewport`) are host-engine collaborators, abstracted as
functions keyed by the camera entity they are invoked on. -/
structure PickEnv where
  portalQuery : Store PortalPick
  cameraEntities : List ℕ
  cameraGlobalTransforms : Store Transf
  viewportToWorld : ℕ → Transf → Vec2 → Option Ray
  intersectPlane : Ray → Vec3 → Vec3 → Option ℚ
  worldToViewport : ℕ → Transf → Vec3 → Option Vec2

def portalContains (pq : Store PortalPick) (e : ℕ) : Bool :=
  (pq.lookup e).isSome

/-- The `(pointer, portal)` pairs contributed by the current hover map. -/
def hoverPortalPairs (pq : Store PortalPick)
    (hoverMap : List (PId × List ℕ)) : List (PId × ℕ) :=
  hoverMap.flatMap fun h => (h.2.filter (portalContains pq)).map fun e => (h.1, e)

/-- The `(pointer, portal)` pairs contributed by `PointerState`'s current
per-button drag targets. -/
def dragPortalPairs (pq : Store PortalPick)
    (drags : List (PId × List ℕ)) : List (PId × ℕ) :=
  drags.flatMap fun d => (d.2.filter (portalContains pq)).map fun e => (d.1, e)

/-- The forwarding set assembled by `portal_picking`: last frame's drag
pairs (drained from the `Local`), plus hovered portal pairs, plus the
current drag pairs. -/
def forwardingPairs (pq : Store PortalPick) (dlf : List (PId × ℕ))
    (hoverMap drags : List (PId × List ℕ)) : List (PId × ℕ) :=
  dlf ++ hoverPortalPairs pq hoverMap ++ dragPortalPairs pq drags

/-- The `dragged_last_frame` set carried into the next frame: exactly the
current drag pairs against portal entities. -/
def nextDraggedLastFrame (pq : Store PortalPick)
    (drags : List (PId × List ℕ)) : List (PId × ℕ) :=
  dragPortalPairs pq drags

/-- Processing of one `(pointer, portal)` pair: resolve the portal's
components, its linked camera, and the primary camera transform
(`continue` without consuming the event reader on failure); then read the
remaining pointer inputs (draining the reader), forwarding each input of
this pointer whose ray/plane/viewport projection chain succeeds as a
synthetic event against the cached render target. -/
def processPair (env : PickEnv) (inputs : List PInput) (pair : PId × ℕ) :
    List PortalInput × List PInput :=
  match env.portalQuery.lookup pair.2 with
  | none => ([], inputs)
  | some pick =>
    match pick.portal.linked_camera.bind
        (fun cam => if env.cameraEntities.contains cam then some cam else none) with
    | none => ([], inputs)
    | some portalCam =>
      match env.cameraGlobalTransforms.lookup pick.portal.primary_camera with
      | none => ([], inputs)
      | some primT =>
        (inputs.filterMap (fun input =>
          if input.pointer_id = pair.1 then
            match env.viewportToWorld pick.portal.primary_camera primT
                input.location.position with
            | none => none
            | some ray =>
              match env.intersectPlane ray pick.transform.translation
                  (Transf.localForward pick.transform) with
              | none => none
              | some distance =>
                match env.worldToViewport portalCam primT
                    (rayGetPoint ray distance) with
                | none => none
                | some position =>
                  some ⟨pick.pointerId, ⟨pick.pointerLocation.target, position⟩,
                    input.action⟩
          else none), [])

/-- The whole `portal_picking` pass: build the forwarding set (deduped, as
a `HashSet`), process each pair against the shared event reader, and hand
the current drag pairs to the next frame.  Returns the emitted synthetic
events and the new `dragged_last_frame`. -/
def portalPickingRun (env : PickEnv) (dlf : List (PId × ℕ))
    (hoverMap drags : List (PId × List ℕ)) (inputs : List PInput) :
    List PortalInput × List (PId × ℕ) :=
  let pairs := (forwardingPairs env.portalQuery dlf hoverMap drags).dedup
  let emitted :=
    (pairs.foldl
      (fun acc pair =>
        let r := processPair env acc.2 pair
        (acc.1 ++ r.1, r.2))
      (([] : List PortalInput), inputs)).1
  (emitted, nextDraggedLastFrame env.portalQuery drags)

/-! ### Algebraic helper lemmas -/

theorem rot_id (v : Vec3) : Quat.rot Quat.id v = v := by
  cases v
  simp only [Quat.rot, Quat.id, Vec3.normSq, Vec3.dot, Vec3.cross, Vec3.smul,
    Vec3.add, Vec3.mk.injEq]
  refine ⟨by ring, by ring, by ring⟩

theorem normSq_rot (q : Quat) (v : Vec3) :
    Vec3.normSq (Quat.rot q v) = Quat.normSq q ^ 2 * Vec3.normSq v := by
  cases q; cases v
  simp only [Quat.rot, Quat.normSq, Vec3.normSq, Vec3.dot, Vec3.cross,
    Vec3.smul, Vec3.add]
  ring

theorem rot_z_smul (q : Quat) (s : ℚ) :
    Quat.rot q ⟨0, 0, s⟩ = Vec3.smul s (Quat.rot q ⟨0, 0, 1⟩) := by
  cases q
  simp only [Quat.rot, Vec3.normSq, Vec3.dot, Vec3.cross, Vec3.smul, Vec3.add,
    Vec3.mk.injEq]
  refine ⟨by ring, by ring, by ring⟩

theorem normSq_smul (c : ℚ) (v : Vec3) :
    Vec3.normSq (Vec3.smul c v) = c * c * Vec3.normSq v := by
  cases v; simp only [Vec3.normSq, Vec3.dot, Vec3.smul]; ring

theorem normSq_neg (v : Vec3) : Vec3.normSq (Vec3.neg v) = Vec3.normSq v := by
  cases v; simp only [Vec3.normSq, Vec3.dot, Vec3.neg]; ring

theorem vsmul_vsmul (a b : ℚ) (v : Vec3) :
    Vec3.smul a (Vec3.smul b v) = Vec3.smul (a * b) v := by
  cases v; simp only [Vec3.smul, Vec3.mk.injEq]
  refine ⟨by ring, by ring, by ring⟩

theorem vsmul_one (v : Vec3) : Vec3.smul 1 v = v := by
  cases v; simp [Vec3.smul]

theorem ratSqrt_mul_self (a : ℚ) (h : 0 ≤ a) : ratSqrt (a * a) = a := by
  unfold ratSqrt
  have hnum : (a * a).num = a.num * a.num := Rat.mul_self_num a
  have hden : (a * a).den = a.den * a.den := Rat.mul_self_den a
  have hnumAbs : (a * a).num.natAbs = a.num.natAbs * a.num.natAbs := by
    rw [hnum, Int.natAbs_mul]
  have hs1 : Nat.sqrt (a * a).num.natAbs = a.num.natAbs := by
    rw [hnumAbs, Nat.sqrt_eq]
  have hs2 : Nat.sqrt (a * a).den = a.den := by
    rw [hden, Nat.sqrt_eq]
  have hnn : 0 ≤ a.num := Rat.num_nonneg.mpr h
  rw [if_pos]
  · rw [hs1, hs2]
    have hcast : ((a.num.natAbs : ℚ)) = (a.num : ℚ) := by
      rw [← Int.cast_natCast, Int.natAbs_of_nonneg hnn]
    rw [hcast, Rat.num_div_den]
  · refine ⟨by rw [hnum]; exact mul_self_nonneg _, ?_, ?_⟩
    · rw [hs1, hnum]
      exact Int.natAbs_mul_self' a.num
    · rw [hs2, hden]

theorem ratSqrt_one : ratSqrt 1 = 1 := by
  simpa using ratSqrt_mul_self 1 zero_le_one

theorem normalizeOrZero_of_normSq_one (v : Vec3) (h : Vec3.normSq v = 1) :
    normalizeOrZero v = v := by
  unfold normalizeOrZero
  rw [h, ratSqrt_one]
  simp [vsmul_one]

theorem forward_eq_rot (t : Transf) (hq : IsUnitQuat t.rotation)
    (hz : 0 < t.scale.z) :
    Transf.forward t = Vec3.neg (Quat.rot t.rotation ⟨0, 0, 1⟩) := by
  unfold Transf.forward
  rw [rot_z_smul]
  have hu : Vec3.normSq (Quat.rot t.rotation ⟨0, 0, 1⟩) = 1 := by
    rw [normSq_rot, hq]
    simp [Vec3.normSq, Vec3.dot]
  have hns : Vec3.normSq (Vec3.smul t.scale.z (Quat.rot t.rotation ⟨0, 0, 1⟩)) =
      t.scale.z * t.scale.z := by
    rw [normSq_smul, hu, mul_one]
  unfold normalizeOrZero
  rw [hns, ratSqrt_mul_self t.scale.z (le_of_lt hz)]
  rw [if_neg (by positivity)]
  rw [vsmul_vsmul, one_div, inv_mul_cancel₀ (ne_of_gt hz), vsmul_one]

theorem normSq_forward (t : Transf) (hq : IsUnitQuat t.rotation)
    (hz : 0 < t.scale.z) : Vec3.normSq (Transf.forward t) = 1 := by
  rw [forward_eq_rot t hq hz, normSq_neg]
  rw [normSq_rot, hq]
  simp [Vec3.normSq, Vec3.dot]

theorem normSq_nearClipNormal (flip : Bool) (portalT primaryT targetT : Transf)
    (hq : IsUnitQuat targetT.rotation) (hz : 0 < targetT.scale.z) :
    Vec3.normSq (nearClipNormal flip portalT primaryT targetT) = 1 := by
  unfold nearClipNormal
  split
  · rw [normSq_neg]; exact normSq_forward targetT hq hz
  · exact normSq_forward targetT hq hz

/-! ### Concrete instances used by claim scenarios -/

/-- Scenario primary viewpoint: origin, looking down -Z (identity rotation). -/
def primaryC1 : Transf := Transf.identity

/-- Scenario portal surface: at (-1.5, 0, 0), identity rotation. -/
def portalTC1 : Transf := { Transf.identity with translation := ⟨-3/2, 0, 0⟩ }

/-- Scenario target: at (0, 0, 2). -/
def targetC1 : Transf := { Transf.identity with translation := ⟨0, 0, 2⟩ }

def gtsC1 : Store Transf := [(1, primaryC1), (2, targetC1)]

def portalC1 : Portal := ⟨1, 2, false, some 7⟩

def poseC1 : CamPose := ⟨Transf.identity, Transf.identity⟩

/-- The local/global transform written for the scenario's secondary camera. -/
def expectedC1 : Transf := ⟨⟨3/2, 0, 2⟩, Quat.id, ⟨1, 1, 1⟩⟩

/-- C1: the per-frame transform update stores, as the secondary camera's
local and world transform, the primary pose re-expressed from the portal's
frame into the target's frame
(`secondary_translation = target * (inverse(portal) * primary_translation)`,
`secondary_rotation = target_rotation * (inverse(portal_rotation) * primary_rotation)`);
in the flat scenario (primary at origin looking down -Z, portal at
(-1.5,0,0) with identity rotation, target at (0,0,2)) the stored
translation is (1.5, 0, 2) and the rotation is the primary's rotation. -/
theorem transform_update_formula :
    (∀ (gts : Store Transf) (camPoses : Store CamPose) (portalT : Transf)
        (p : Portal) (primary target : Transf) (cam : ℕ) (pose : CamPose),
      gts.lookup p.primary_camera = some primary →
      gts.lookup p.target = some target →
      p.linked_camera = some cam →
      camPoses.lookup cam = some pose →
      (updateOneTransform gts camPoses portalT p).lookup cam =
        some ⟨{ pose.local_xf with
                translation := Transf.transformPoint target
                  (Transf.invTransformPoint portalT primary.translation)
                rotation := Quat.mul target.rotation
                  (Quat.mul (Quat.inv portalT.rotation) primary.rotation) },
              { pose.local_xf with
                translation := Transf.transformPoint target
                  (Transf.invTransformPoint portalT primary.translation)
                rotation := Quat.mul target.rotation
                  (Quat.mul (Quat.inv portalT.rotation) primary.rotation) }⟩)
  ∧ ((transformPass gtsC1 [(portalTC1, portalC1)] [(7, poseC1)]).lookup 7 =
      some ⟨expectedC1, expectedC1⟩
    ∧ expectedC1.rotation = primaryC1.rotation) := by
  constructor
  · intro gts camPoses portalT p primary target cam pose h1 h2 h3 h4
    simp only [updateOneTransform, h1, h2, h3, h4, computeSecondaryPose,
      Store.set, List.lookup, beq_self_eq_true]
  · constructor
    · simp only [transformPass, List.foldl, updateOneTransform, gtsC1,
        portalC1, portalTC1, primaryC1, targetC1, poseC1, expectedC1,
        computeSecondaryPose, Transf.identity, Transf.transformPoint,
        Transf.invTransformPoint, Quat.mul, Quat.inv, Quat.id, Quat.rot,
        Vec3.add, Vec3.sub, Vec3.cmul, Vec3.smul, Vec3.dot, Vec3.cross,
        Vec3.normSq, Vec3.zero, Store.set, List.lookup]
      norm_num
    · rfl

/-- Witness for C1's universally-quantified part at the scenario world. -/
theorem transform_update_formula_witness :
    (updateOneTransform gtsC1 [(7, poseC1)] portalTC1 portalC1).lookup 7 =
      some ⟨{ poseC1.local_xf with
              translation := Transf.transformPoint targetC1
                (Transf.invTransformPoint portalTC1 primaryC1.translation)
              rotation := Quat.mul targetC1.rotation
                (Quat.mul (Quat.inv portalTC1.rotation) primaryC1.rotation) },
            { poseC1.local_xf with
              translation := Transf.transformPoint targetC1
                (Transf.invTransformPoint portalTC1 primaryC1.translation)
              rotation := Quat.mul targetC1.rotation
                (Quat.mul (Quat.inv portalTC1.rotation) primaryC1.rotation) }⟩ :=
  transform_update_formula.1 gtsC1 [(7, poseC1)] portalTC1 portalC1
    primaryC1 targetC1 7 poseC1 rfl rfl rfl rfl

/-- C2: the near-clip half-space written by the frustum update places the
target's own position exactly on the plane:
`dot(target_translation, normal) + d = 0`. -/
theorem near_clip_plane_through_target (flip : Bool)
    (portalT primaryT targetT : Transf) (hq : IsUnitQuat targetT.rotation)
    (hz : 0 < targetT.scale.z) :
    Vec3.dot targetT.translation
        (portalNearHalfSpace flip portalT primaryT targetT).normal
      + (portalNearHalfSpace flip portalT primaryT targetT).d = 0 := by
  have hn : Vec3.normSq (nearClipNormal flip portalT primaryT targetT) = 1 :=
    normSq_nearClipNormal flip portalT primaryT targetT hq hz
  simp only [portalNearHalfSpace, halfSpaceNew, hn, ratSqrt_one,
    normalizeOrZero_of_normSq_one _ hn]
  norm_num [vsmul_one]

/-- Witness for C2 at identity transforms. -/
theorem near_clip_plane_through_target_witness :
    Vec3.dot Transf.identity.translation
        (portalNearHalfSpace false Transf.identity Transf.identity
          Transf.identity).normal
      + (portalNearHalfSpace false Transf.identity Transf.identity
          Transf.identity).d = 0 :=
  near_clip_plane_through_target false Transf.identity Transf.identity
    Transf.identity
    (by simp [IsUnitQuat, Quat.normSq, Transf.identity, Quat.id]) zero_lt_one

/-- The identity transform's forward axis is -Z. -/
theorem forward_identity : Transf.forward Transf.identity = ⟨0, 0, -1⟩ := by
  have h := forward_eq_rot Transf.identity
    (by simp [IsUnitQuat, Quat.normSq, Transf.identity, Quat.id]) zero_lt_one
  rw [h]
  show Vec3.neg (Quat.rot Quat.id ⟨0, 0, 1⟩) = _
  rw [rot_id]
  norm_num [Vec3.neg]

/-- The identity transform's forward axis differs from its negation. -/
theorem forward_identity_ne_neg :
    Transf.forward Transf.identity ≠ Vec3.neg (Transf.forward Transf.identity) := by
  rw [forward_identity]
  norm_num [Vec3.neg, Vec3.mk.injEq]

/-- C3 counterexample primary viewpoint: at (0, 0, -5), which lies on the
same side of the identity portal's plane as the portal's forward axis
(-Z). -/
def primaryC3T : Transf := { Transf.identity with translation := ⟨0, 0, -5⟩ }

/-- C3 counterexample: with flipping enabled and the primary viewpoint on
the SAME side of the portal plane as the portal's forward axis
(`(primary - portal) · forward = 5 > 0`), the code still negates the
near-clip normal — refuting "negated exactly when the primary viewpoint is
on the opposite side". -/
theorem near_clip_flip_counterexample :
    nearClipNormal true Transf.identity primaryC3T Transf.identity
        = Vec3.neg (Transf.forward Transf.identity)
      ∧ Transf.forward Transf.identity ≠ Vec3.neg (Transf.forward Transf.identity)
      ∧ 0 < Vec3.dot (Vec3.sub primaryC3T.translation Transf.identity.translation)
          (Transf.forward Transf.identity) := by
  refine ⟨?_, forward_identity_ne_neg, ?_⟩
  · unfold nearClipNormal
    rw [if_pos]
    rw [forward_identity]
    simp only [Bool.true_and, decide_eq_true_eq]
    norm_num [Transf.identity, primaryC3T, Vec3.sub, Vec3.dot, Vec3.zero]
  · rw [forward_identity]
    norm_num [primaryC3T, Transf.identity, Vec3.sub, Vec3.dot, Vec3.zero]

/-- C3 (amended): with `flip_near_plane_normal` enabled, the near-clip
normal is negated exactly when
`dot(portal_position - primary_position, portal_forward) ≤ 0`, i.e. when
the primary viewpoint lies on the same side of the portal plane as the
portal's forward axis (or exactly on the plane); with the flag disabled
the normal is never negated. -/
theorem near_clip_flip_amended (flip : Bool) (portalT primaryT targetT : Transf)
    (hne : Transf.forward targetT ≠ Vec3.neg (Transf.forward targetT)) :
    (nearClipNormal flip portalT primaryT targetT
        = Vec3.neg (Transf.forward targetT)
      ↔ flip = true ∧
        Vec3.dot (Vec3.sub portalT.translation primaryT.translation)
          (Transf.forward portalT) ≤ 0)
  ∧ (flip = false →
      nearClipNormal flip portalT primaryT targetT = Transf.forward targetT) := by
  unfold nearClipNormal
  cases flip
  · rw [Bool.false_and]
    simp only [Bool.false_eq_true, if_false]
    refine ⟨⟨fun h => absurd h hne, fun h => h.1.elim⟩, fun _ => trivial⟩
  · rw [Bool.true_and]
    by_cases hd : Vec3.dot (Vec3.sub portalT.translation primaryT.translation)
        (Transf.forward portalT) ≤ 0
    · rw [if_pos (decide_eq_true hd)]
      exact ⟨⟨fun _ => ⟨rfl, hd⟩, fun _ => rfl⟩, fun h => Bool.noConfusion h⟩
    · rw [if_neg (fun hc => hd (of_decide_eq_true hc))]
      exact ⟨⟨fun h => absurd h hne, fun h => absurd h.2 hd⟩,
        fun h => Bool.noConfusion h⟩

/-- Witness for C3's amended theorem at identity transforms. -/
theorem near_clip_flip_amended_witness :
    ((nearClipNormal true Transf.identity Transf.identity Transf.identity
        = Vec3.neg (Transf.forward Transf.identity)
      ↔ true = true ∧
        Vec3.dot (Vec3.sub Transf.identity.translation Transf.identity.translation)
          (Transf.forward Transf.identity) ≤ 0)
    ∧ (true = false →
        nearClipNormal true Transf.identity Transf.identity Transf.identity
          = Transf.forward Transf.identity)) :=
  near_clip_flip_amended true Transf.identity Transf.identity Transf.identity
    forward_identity_ne_neg

/-- A primary camera with bevy's default order 0. -/
def camC4 : Camera :=
  { order := 0, target := .window .primary, viewport := none, is_active := true,
    hdr := false, rest := 0 }

def optsNone : CameraOpts := ⟨none, none, none, none, none⟩

/-- A non-default `Projection` component sitting on the primary camera
entity.  `setup_portal_camera`'s primary-camera query fetches `Camera`,
`Camera3d`, `DebandDither`, `Tonemapping`, `ColorGrading` and `Exposure`
only — it never reads this component. -/
def primaryProjC4 : ℕ := 5

/-- C4 counterexample: with the primary camera at bevy's default order 0
and carrying a non-default `Projection` component, the spawned secondary
camera's order is the constant 100 — NOT less than the primary's, so the
secondary does not render before the primary by camera ordering — and its
`Projection` is the default, not the primary's. -/
theorem spawn_order_counterexample :
    ((mkSpawnedCamera camC4 optsNone 3).camera.order = 100
      ∧ camC4.order = 0
      ∧ ¬ (mkSpawnedCamera camC4 optsNone 3).camera.order < camC4.order)
  ∧ ((mkSpawnedCamera camC4 optsNone 3).projection = 0
      ∧ primaryProjC4 = 5
      ∧ (mkSpawnedCamera camC4 optsNone 3).projection ≠ primaryProjC4) := by
  refine ⟨⟨rfl, rfl, ?_⟩, rfl, rfl, by decide⟩
  show ¬ (100 : ℤ) < 0
  norm_num

/-- C4 (amended): the spawned secondary camera's order is the constant 100,
independent of the primary camera's order; its render target is the portal
image; the rest of the `Camera` configuration is copied from the primary,
and the `Camera3d`, dither, tone-mapping, color-grading and exposure
components present on the primary are copied from it; the projection is
not copied — the spawned camera always carries the default `Projection`. -/
theorem spawn_copies_config_amended :
    ∀ (primary : Camera) (opts : CameraOpts) (img : ℕ),
      (mkSpawnedCamera primary opts img).camera.order = 100
    ∧ (mkSpawnedCamera primary opts img).camera.target = .image img
    ∧ (mkSpawnedCamera primary opts img).camera.viewport = primary.viewport
    ∧ (mkSpawnedCamera primary opts img).camera.is_active = primary.is_active
    ∧ (mkSpawnedCamera primary opts img).camera.hdr = primary.hdr
    ∧ (mkSpawnedCamera primary opts img).camera.rest = primary.rest
    ∧ (∀ v, opts.camera3d = some v →
        (mkSpawnedCamera primary opts img).camera3d = v)
    ∧ (∀ v, opts.debandDither = some v →
        (mkSpawnedCamera primary opts img).debandDither = v)
    ∧ (∀ v, opts.tonemapping = some v →
        (mkSpawnedCamera primary opts img).tonemapping = v)
    ∧ (∀ v, opts.colorGrading = some v →
        (mkSpawnedCamera primary opts img).colorGrading = v)
    ∧ (∀ v, opts.exposure = some v →
        (mkSpawnedCamera primary opts img).exposure = v)
    ∧ (mkSpawnedCamera primary opts img).projection = 0
    ∧ ∀ o : ℤ, mkSpawnedCamera { primary with order := o } opts img
        = mkSpawnedCamera primary opts img :=
  fun _ opts _ =>
    ⟨rfl, rfl, rfl, rfl, rfl, rfl,
      fun v hv => by rw [mkSpawnedCamera, hv]; rfl,
      fun v hv => by rw [mkSpawnedCamera, hv]; rfl,
      fun v hv => by rw [mkSpawnedCamera, hv]; rfl,
      fun v hv => by rw [mkSpawnedCamera, hv]; rfl,
      fun v hv => by rw [mkSpawnedCamera, hv]; rfl,
      rfl, fun _ => rfl⟩

/-- All-present optional components for the C4 witness. -/
def optsAllC4 : CameraOpts := ⟨some 11, some 12, some 13, some 14, some 15⟩

/-- Witness for C4's amended theorem: a primary carrying every optional
component has each one copied onto the spawned camera. -/
theorem spawn_copies_config_amended_witness :
    (mkSpawnedCamera camC4 optsAllC4 3).camera.order = 100
  ∧ (mkSpawnedCamera camC4 optsAllC4 3).camera3d = 11
  ∧ (mkSpawnedCamera camC4 optsAllC4 3).debandDither = 12
  ∧ (mkSpawnedCamera camC4 optsAllC4 3).tonemapping = 13
  ∧ (mkSpawnedCamera camC4 optsAllC4 3).colorGrading = 14
  ∧ (mkSpawnedCamera camC4 optsAllC4 3).exposure = 15
  ∧ (mkSpawnedCamera camC4 optsAllC4 3).projection = 0 :=
  ⟨(spawn_copies_config_amended camC4 optsAllC4 3).1,
    (spawn_copies_config_amended camC4 optsAllC4 3).2.2.2.2.2.2.1 11 rfl,
    (spawn_copies_config_amended camC4 optsAllC4 3).2.2.2.2.2.2.2.1 12 rfl,
    (spawn_copies_config_amended camC4 optsAllC4 3).2.2.2.2.2.2.2.2.1 13 rfl,
    (spawn_copies_config_amended camC4 optsAllC4 3).2.2.2.2.2.2.2.2.2.1 14 rfl,
    (spawn_copies_config_amended camC4 optsAllC4 3).2.2.2.2.2.2.2.2.2.2.1 15 rfl,
    (spawn_copies_config_amended camC4 optsAllC4 3).2.2.2.2.2.2.2.2.2.2.2.1⟩

/-- C5: portal setup fails — returning without spawning a secondary camera
and leaving `linked_camera` as `None` — exactly when the primary camera
reference does not resolve, or no viewport size can be determined, or the
target has no resolvable world transform; on success `linked_camera` is
set to `Some`. -/
theorem setup_failure_iff (env : SizeEnv) (cams : Store (Camera × CameraOpts))
    (gts : Store Transf) (p : Portal) (n img : ℕ)
    (hl : p.linked_camera = none) :
    ((setupPortalCamera env cams gts p n img).2 = none ↔
      ((cams.lookup p.primary_camera).isNone = true
        ∨ ((cams.lookup p.primary_camera).any
            fun b => (getViewportSize env b.1).isNone) = true
        ∨ (gts.lookup p.target).isNone = true))
  ∧ ((setupPortalCamera env cams gts p n img).2 = none →
      (setupPortalCamera env cams gts p n img).1.linked_camera = none)
  ∧ (∀ r, (setupPortalCamera env cams gts p n img).2 = some r →
      (setupPortalCamera env cams gts p n img).1.linked_camera = some n) := by
  have key : ∀ c : Camera, portalImagesNew env c = none ↔
      getViewportSize env c = none := by
    intro c
    unfold portalImagesNew
    cases h : getViewportSize env c <;> simp [pixelSizeBgra8UnormSrgb]
  cases hc : cams.lookup p.primary_camera with
  | none =>
    simp [setupPortalCamera, hc, hl]
  | some b =>
    obtain ⟨cam, opts⟩ := b
    cases hv : getViewportSize env cam with
    | none =>
      have hno : portalImagesNew env cam = none := (key cam).mpr hv
      simp [setupPortalCamera, hc, hno, hv, hl]
    | some sz =>
      have hsome : ∃ i, portalImagesNew env cam = some i := by
        unfold portalImagesNew
        rw [hv]
        simp [pixelSizeBgra8UnormSrgb]
      obtain ⟨i, hi⟩ := hsome
      cases ht : gts.lookup p.target with
      | none => simp [setupPortalCamera, hc, hi, ht, hv, hl]
      | some g => simp [setupPortalCamera, hc, hi, ht, hv, hl]

/-- Witness for C5: a portal whose primary-camera reference resolves to no
entity fails setup with `linked_camera` left `None`. -/
theorem setup_failure_iff_witness :
    ((setupPortalCamera ⟨none, [], [], []⟩ [] [] ⟨1, 2, false, none⟩ 9 3).2 = none ↔
      (((List.nil : Store (Camera × CameraOpts)).lookup 1).isNone = true
        ∨ (((List.nil : Store (Camera × CameraOpts)).lookup 1).any
            fun b => (getViewportSize ⟨none, [], [], []⟩ b.1).isNone) = true
        ∨ (((List.nil : Store Transf).lookup 2).isNone = true)))
  ∧ ((setupPortalCamera ⟨none, [], [], []⟩ [] [] ⟨1, 2, false, none⟩ 9 3).2 = none →
      (setupPortalCamera ⟨none, [], [], []⟩ [] [] ⟨1, 2, false, none⟩ 9 3).1.linked_camera
        = none)
  ∧ (∀ r, (setupPortalCamera ⟨none, [], [], []⟩ [] [] ⟨1, 2, false, none⟩ 9 3).2 = some r →
      (setupPortalCamera ⟨none, [], [], []⟩ [] [] ⟨1, 2, false, none⟩ 9 3).1.linked_camera
        = some 9) :=
  setup_failure_iff ⟨none, [], [], []⟩ [] [] ⟨1, 2, false, none⟩ 9 3 rfl

/-- C6: in both per-frame passes, a portal whose primary camera, target or
linked secondary camera cannot be resolved is skipped — the camera stores
are left untouched — and the pass continues identically over the remaining
portals. -/
theorem update_pass_skips_unresolvable :
    (∀ (gts : Store Transf) (camPoses : Store CamPose) (portalT : Transf)
        (p : Portal) (rest : List (Transf × Portal)),
      (gts.lookup p.primary_camera = none ∨ gts.lookup p.target = none ∨
        p.linked_camera = none ∨
        (∀ cam, p.linked_camera = some cam → camPoses.lookup cam = none)) →
      updateOneTransform gts camPoses portalT p = camPoses
      ∧ transformPass gts ((portalT, p) :: rest) camPoses
          = transformPass gts rest camPoses)
  ∧ (∀ (gts : Store Transf) (frusta : Store Frustum) (portalT : Transf)
        (p : Portal) (rest : List (Transf × Portal)),
      (p.linked_camera = none ∨
        (∀ cam, p.linked_camera = some cam → frusta.lookup cam = none) ∨
        gts.lookup p.primary_camera = none ∨ gts.lookup p.target = none) →
      updateOneFrustum gts frusta portalT p = frusta
      ∧ frustumPass gts ((portalT, p) :: rest) frusta
          = frustumPass gts rest frusta) := by
  constructor
  · intro gts camPoses portalT p rest h
    have hskip : updateOneTransform gts camPoses portalT p = camPoses := by
      rcases h with h | h | h | h
      · cases hT : gts.lookup p.target <;> simp [updateOneTransform, h, hT]
      · cases hP : gts.lookup p.primary_camera <;>
          simp [updateOneTransform, h, hP]
      · cases hP : gts.lookup p.primary_camera <;>
          cases hT : gts.lookup p.target <;>
          simp [updateOneTransform, h, hP, hT]
      · cases hP : gts.lookup p.primary_camera <;>
          cases hT : gts.lookup p.target <;>
          cases hL : p.linked_camera <;>
          simp [updateOneTransform, hP, hT, hL]
        case some.some.some cam =>
          simp [h cam hL]
    exact ⟨hskip, by simp only [transformPass, List.foldl_cons, hskip]⟩
  · intro gts frusta portalT p rest h
    have hskip : updateOneFrustum gts frusta portalT p = frusta := by
      rcases h with h | h | h | h
      · simp [updateOneFrustum, h]
      · cases hL : p.linked_camera with
        | none => simp [updateOneFrustum, hL]
        | some cam => simp [updateOneFrustum, hL, h cam hL]
      · cases hL : p.linked_camera with
        | none => simp [updateOneFrustum, hL]
        | some cam =>
          cases hFr : frusta.lookup cam with
          | none => simp [updateOneFrustum, hL, hFr]
          | some fr => simp [updateOneFrustum, hL, hFr, h]
      · cases hL : p.linked_camera with
        | none => simp [updateOneFrustum, hL]
        | some cam =>
          cases hFr : frusta.lookup cam with
          | none => simp [updateOneFrustum, hL, hFr]
          | some fr =>
            cases hP : gts.lookup p.primary_camera <;>
              simp [updateOneFrustum, hL, hFr, hP, h]
    exact ⟨hskip, by simp only [frustumPass, List.foldl_cons, hskip]⟩

/-- Witness for C6: a portal referencing entities absent from an empty
world leaves the (empty) stores untouched in both passes. -/
theorem update_pass_skips_unresolvable_witness :
    (updateOneTransform [] [] Transf.identity ⟨1, 2, false, none⟩ = []
      ∧ transformPass [] [(Transf.identity, ⟨1, 2, false, none⟩)] []
          = transformPass [] [] [])
  ∧ (updateOneFrustum [] [] Transf.identity ⟨1, 2, false, none⟩ = []
      ∧ frustumPass [] [(Transf.identity, ⟨1, 2, false, none⟩)] []
          = frustumPass [] [] []) :=
  ⟨update_pass_skips_unresolvable.1 [] [] Transf.identity ⟨1, 2, false, none⟩ []
      (Or.inl rfl),
    update_pass_skips_unresolvable.2 [] [] Transf.identity ⟨1, 2, false, none⟩ []
      (Or.inl rfl)⟩

/-- A portal whose setup failed: `linked_camera` is `None`. -/
def portalNoCam : Portal := ⟨1, 2, false, none⟩

def worldC7 : List Ent := [⟨5, none⟩]

/-- C7 counterexample: removing a Portal whose `linked_camera` is `None`
(setup failed) despawns ZERO entities, refuting "always despawns exactly
one secondary camera, never zero". -/
theorem despawn_counterexample :
    despawnPortalCamera portalNoCam worldC7 = worldC7
  ∧ worldC7.length - (despawnPortalCamera portalNoCam worldC7).length = 0
  ∧ (0 : ℕ) ≠ 1 := by
  refine ⟨rfl, rfl, by decide⟩

/-- C7 (amended): when `linked_camera` is `Some cam`, removing the Portal
despawns exactly `cam` together with its descendants and nothing else
(an entity survives iff it is outside `cam`'s subtree); when
`linked_camera` is `None`, nothing is despawned. -/
theorem despawn_amended :
    (∀ (p : Portal) (w : List Ent), p.linked_camera = none →
      despawnPortalCamera p w = w)
  ∧ (∀ (p : Portal) (w : List Ent) (cam : ℕ), p.linked_camera = some cam →
      (∀ e, e ∈ despawnPortalCamera p w ↔
        e ∈ w ∧ inSubtree w cam w.length e.id = false)
      ∧ (∀ e, e ∈ w → inSubtree w cam w.length e.id = true →
          e ∉ despawnPortalCamera p w)) := by
  constructor
  · intro p w h
    simp [despawnPortalCamera, h]
  · intro p w cam h
    constructor
    · intro e
      simp [despawnPortalCamera, h, List.mem_filter]
    · intro e hw hsub hmem
      rw [despawnPortalCamera, h] at hmem
      simp only [List.mem_filter] at hmem
      rw [hsub] at hmem
      simp at hmem

/-- Witness for C7's amended theorem: the `None` case on a concrete world,
and the `Some` case's membership characterization at a concrete entity. -/
theorem despawn_amended_witness :
    despawnPortalCamera portalNoCam worldC7 = worldC7
  ∧ ((⟨5, none⟩ : Ent) ∈ despawnPortalCamera ⟨1, 2, false, some 5⟩ worldC7 ↔
      (⟨5, none⟩ : Ent) ∈ worldC7 ∧ inSubtree worldC7 5 worldC7.length 5 = false) :=
  ⟨despawn_amended.1 portalNoCam worldC7 rfl,
    (despawn_amended.2 ⟨1, 2, false, some 5⟩ worldC7 5 rfl).1 ⟨5, none⟩⟩

/-- C8: for a resolvable portal, the frustum update stores a frustum whose
half-space list is the old one with exactly index 4 (the near plane)
overwritten; every other index reads back unchanged. -/
theorem frustum_update_only_near (gts : Store Transf) (frusta : Store Frustum)
    (portalT : Transf) (p : Portal) (cam : ℕ) (frustum : Frustum)
    (primary target : Transf)
    (h1 : p.linked_camera = some cam) (h2 : frusta.lookup cam = some frustum)
    (h3 : gts.lookup p.primary_camera = some primary)
    (h4 : gts.lookup p.target = some target)
    (h6 : frustum.half_spaces.length = 6) :
    ((updateOneFrustum gts frusta portalT p).lookup cam =
      some ⟨frustum.half_spaces.set 4
        (portalNearHalfSpace p.flip_near_plane_normal portalT primary target)⟩)
  ∧ (∀ i : ℕ, i ≠ 4 →
      (frustum.half_spaces.set 4
          (portalNearHalfSpace p.flip_near_plane_normal portalT primary target))[i]?
        = frustum.half_spaces[i]?)
  ∧ ((frustum.half_spaces.set 4
        (portalNearHalfSpace p.flip_near_plane_normal portalT primary target))[4]?
      = some (portalNearHalfSpace p.flip_near_plane_normal portalT primary target)) := by
  refine ⟨?_, ?_, ?_⟩
  · simp [updateOneFrustum, h1, h2, h3, h4, Store.set, List.lookup]
  · intro i hi
    exact List.getElem?_set_ne (fun he => hi he.symm)
  · exact List.getElem?_set_eq_of_lt _ (by omega)

def frustumC8 : Frustum :=
  ⟨[⟨⟨1, 0, 0⟩, 0⟩, ⟨⟨0, 1, 0⟩, 0⟩, ⟨⟨0, 0, 1⟩, 0⟩,
    ⟨⟨1, 0, 0⟩, 1⟩, ⟨⟨0, 1, 0⟩, 1⟩, ⟨⟨0, 0, 1⟩, 1⟩]⟩

/-- Witness for C8 at a concrete world. -/
theorem frustum_update_only_near_witness :
    ((updateOneFrustum [(1, Transf.identity), (2, Transf.identity)]
        [(7, frustumC8)] Transf.identity ⟨1, 2, false, some 7⟩).lookup 7 =
      some ⟨frustumC8.half_spaces.set 4
        (portalNearHalfSpace false Transf.identity Transf.identity Transf.identity)⟩)
  ∧ ((frustumC8.half_spaces.set 4
        (portalNearHalfSpace false Transf.identity Transf.identity Transf.identity))[0]?
      = frustumC8.half_spaces[0]?)
  ∧ ((frustumC8.half_spaces.set 4
        (portalNearHalfSpace false Transf.identity Transf.identity Transf.identity))[4]?
      = some (portalNearHalfSpace false Transf.identity Transf.identity Transf.identity)) :=
  ⟨(frustum_update_only_near [(1, Transf.identity), (2, Transf.identity)]
      [(7, frustumC8)] Transf.identity ⟨1, 2, false, some 7⟩ 7 frustumC8
      Transf.identity Transf.identity rfl rfl rfl rfl rfl).1,
    (frustum_update_only_near [(1, Transf.identity), (2, Transf.identity)]
      [(7, frustumC8)] Transf.identity ⟨1, 2, false, some 7⟩ 7 frustumC8
      Transf.identity Transf.identity rfl rfl rfl rfl rfl).2.1 0 (by decide),
    (frustum_update_only_near [(1, Transf.identity), (2, Transf.identity)]
      [(7, frustumC8)] Transf.identity ⟨1, 2, false, some 7⟩ 7 frustumC8
      Transf.identity Transf.identity rfl rfl rfl rfl rfl).2.2⟩

/-- C9: a pointer mid-drag against a portal stays in the picking pass's
forwarding set regardless of the current hover map (and is re-recorded for
the next frame), and for the forwarded portal every matching pointer input
whose ray/plane/viewport projection succeeds yields a synthetic event
against the portal's cached render target. -/
theorem drag_keeps_forwarding :
    (∀ (pq : Store PortalPick) (dlf : List (PId × ℕ))
        (hoverMap drags : List (PId × List ℕ)) (pid : PId) (e : ℕ)
        (lst : List ℕ),
      (pid, lst) ∈ drags → e ∈ lst → portalContains pq e = true →
      (pid, e) ∈ forwardingPairs pq dlf hoverMap drags
      ∧ (pid, e) ∈ nextDraggedLastFrame pq drags)
  ∧ (∀ (env : PickEnv) (dlf : List (PId × ℕ))
        (hoverMap drags : List (PId × List ℕ)) (inputs : List PInput)
        (pid : PId) (e : ℕ) (pick : PortalPick) (cam : ℕ) (primT : Transf)
        (input : PInput) (ray : Ray) (dist : ℚ) (pos : Vec2),
      (forwardingPairs env.portalQuery dlf hoverMap drags).dedup = [(pid, e)] →
      env.portalQuery.lookup e = some pick →
      pick.portal.linked_camera = some cam →
      env.cameraEntities.contains cam = true →
      env.cameraGlobalTransforms.lookup pick.portal.primary_camera = some primT →
      input ∈ inputs → input.pointer_id = pid →
      env.viewportToWorld pick.portal.primary_camera primT
        input.location.position = some ray →
      env.intersectPlane ray pick.transform.translation
        (Transf.localForward pick.transform) = some dist →
      env.worldToViewport cam primT (rayGetPoint ray dist) = some pos →
      (⟨pick.pointerId, ⟨pick.pointerLocation.target, pos⟩, input.action⟩ :
          PortalInput)
        ∈ (portalPickingRun env dlf hoverMap drags inputs).1) := by
  constructor
  · intro pq dlf hoverMap drags pid e lst hd he hc
    have hdrag : (pid, e) ∈ dragPortalPairs pq drags := by
      unfold dragPortalPairs
      refine List.mem_flatMap.mpr ⟨(pid, lst), hd, ?_⟩
      exact List.mem_map.mpr ⟨e, List.mem_filter.mpr ⟨he, hc⟩, rfl⟩
    exact ⟨List.mem_append.mpr (Or.inr hdrag), hdrag⟩
  · intro env dlf hoverMap drags inputs pid e pick cam primT input ray dist pos
      hpq hpick hlink hcam hprim hin hpid hv2w hip hw2v
    unfold portalPickingRun
    rw [hpq]
    simp only [List.foldl_cons, List.foldl_nil, List.nil_append]
    unfold processPair
    simp only [hpick, hlink, Option.some_bind, hcam, if_true, hprim]
    refine List.mem_filterMap.mpr ⟨input, hin, ?_⟩
    rw [if_pos hpid]
    simp only [hv2w, hip, hw2v]

/-- Concrete portal components for the C9 witness. -/
def pickC9 : PortalPick :=
  { portal := ⟨1, 2, false, some 9⟩, transform := Transf.identity,
    pointerId := 50, pointerLocation := ⟨77, ⟨0, 0⟩⟩ }

/-- Concrete picking environment for the C9 witness. -/
def envC9 : PickEnv :=
  { portalQuery := [(3, pickC9)]
    cameraEntities := [9]
    cameraGlobalTransforms := [(1, Transf.identity)]
    viewportToWorld := fun _ _ _ => some ⟨Vec3.zero, ⟨0, 0, -1⟩⟩
    intersectPlane := fun _ _ _ => some 1
    worldToViewport := fun _ _ _ => some ⟨5, 5⟩ }

def inputC9 : PInput := ⟨0, ⟨99, ⟨1, 2⟩⟩, 7⟩

/-- Witness for C9: a pointer dragging portal entity 3 while the hover map
is empty still gets its pair forwarded, and the synthetic event is
emitted. -/
theorem drag_keeps_forwarding_witness :
    ((0, 3) ∈ forwardingPairs envC9.portalQuery [] [] [(0, [3])]
      ∧ (0, 3) ∈ nextDraggedLastFrame envC9.portalQuery [(0, [3])])
  ∧ (⟨pickC9.pointerId, ⟨pickC9.pointerLocation.target, ⟨5, 5⟩⟩,
        inputC9.action⟩ : PortalInput)
      ∈ (portalPickingRun envC9 [] [] [(0, [3])] [inputC9]).1 :=
  ⟨drag_keeps_forwarding.1 envC9.portalQuery [] [] [(0, [3])] 0 3 [3]
      (List.mem_singleton.mpr rfl) (List.mem_singleton.mpr rfl) rfl,
    drag_keeps_forwarding.2 envC9 [] [] [(0, [3])] [inputC9] 0 3 pickC9 9
      Transf.identity inputC9 ⟨Vec3.zero, ⟨0, 0, -1⟩⟩ 1 ⟨5, 5⟩
      (by simp [forwardingPairs, hoverPortalPairs, dragPortalPairs, envC9,
        portalContains, pickC9])
      rfl rfl rfl rfl (List.mem_singleton.mpr rfl) rfl rfl rfl rfl⟩

/-- Environment and camera for the C10 sub-viewport contrast. -/
def envC10 : SizeEnv := ⟨some ⟨1920, 1080⟩, [], [], []⟩

def camC10 : Camera :=
  { order := 0, target := .window .primary, viewport := some ⟨⟨400, 300⟩⟩,
    is_active := true, hdr := false, rest := 0 }

/-- C10: an explicitly configured viewport determines the image size
regardless of the camera's render target; without one, the render target
is resolved (primary window, window entity, image, manual texture view),
yielding `none` when unresolvable — so a sub-viewport camera's portal
image size differs from the window size. -/
theorem viewport_size_spec :
    (∀ (env : SizeEnv) (cam : Camera) (vp : Viewport), cam.viewport = some vp →
      getViewportSize env cam = some (toExtent vp.physical_size))
  ∧ (∀ (env : SizeEnv) (cam : Camera), cam.viewport = none →
      ((∀ s, env.primaryWindow = some s → cam.target = .window .primary →
          getViewportSize env cam = some (toExtent s))
        ∧ (∀ e, cam.target = .window (.entity e) →
            getViewportSize env cam = (env.windows.lookup e).map toExtent)
        ∧ (∀ h, cam.target = .image h →
            getViewportSize env cam = (env.images.lookup h).map toExtent)
        ∧ (∀ h, cam.target = .textureView h →
            getViewportSize env cam
              = (env.manualTextureViews.lookup h).map toExtent)
        ∧ (cam.target = .window .primary → env.primaryWindow = none →
            getViewportSize env cam = none)))
  ∧ (getViewportSize envC10 camC10 = some ⟨400, 300, 1⟩
      ∧ envC10.primaryWindow = some ⟨1920, 1080⟩
      ∧ (⟨400, 300, 1⟩ : Extent3d) ≠ ⟨1920, 1080, 1⟩) := by
  refine ⟨?_, ?_, rfl, rfl, by decide⟩
  · intro env cam vp h
    simp [getViewportSize, h, toExtent]
  · intro env cam h
    refine ⟨?_, ?_, ?_, ?_, ?_⟩
    · intro s hs ht
      simp [getViewportSize, h, ht, hs, toExtent]
    · intro e ht
      simp [getViewportSize, h, ht]
    · intro hnd ht
      simp [getViewportSize, h, ht]
    · intro hnd ht
      simp [getViewportSize, h, ht]
    · intro ht hs
      simp [getViewportSize, h, ht, hs]

/-- Witness for C10 at concrete cameras: the configured-viewport case and
an unresolvable primary-window fallback. -/
theorem viewport_size_spec_witness :
    getViewportSize envC10 camC10 = some (toExtent (⟨⟨400, 300⟩⟩ : Viewport).physical_size)
  ∧ getViewportSize ⟨none, [], [], []⟩
      { order := 0, target := .window .primary, viewport := none,
        is_active := true, hdr := false, rest := 0 } = none :=
  ⟨viewport_size_spec.1 envC10 camC10 ⟨⟨400, 300⟩⟩ rfl,
    (viewport_size_spec.2.1 ⟨none, [], [], []⟩
      { order := 0, target := .window .primary, viewport := none,
        is_active := true, hdr := false, rest := 0 } rfl).2.2.2.2 rfl rfl⟩

end Portals
